import Mathlib

/-!
Verification of the rural-world-analyzer application (src/app.py) against its
natural-language specification.  The Python source is shallowly embedded below:
pure functions become Lean functions, the Streamlit / folium / plotly side
effects become explicit records of the data forwarded to those libraries, and
the one external network call (osmnx) becomes an oracle parameter that either
yields a feature table or raises.
-/

/-- Embeds `RADIUS_DEFAULT = 1000` from src/app.py line 13. -/
def RADIUS_DEFAULT : Int := 1000

/-- Fuel-based floor of the base-2 logarithm (kernel-evaluable helper for
`py_int_log2`). -/
def py_int_log2_aux : Nat → Nat → Nat
  | 0, _ => 0
  | fuel + 1, n => if n < 2 then 0 else py_int_log2_aux fuel (n / 2) + 1

/-- The value of the Python expression `int(math.log(x, 2))` for a real
`x ≥ 1`, given here the floored argument `n = ⌊x⌋ ≥ 1`: truncation of a
nonnegative real is its floor, and `⌊log₂ x⌋ = ⌊log₂ ⌊x⌋⌋` whenever `x ≥ 1`,
since `2 ^ k ≤ x ↔ 2 ^ k ≤ ⌊x⌋` for integer `2 ^ k`.  The real logarithm is
embedded exactly, in place of the IEEE double of `math.log`. -/
def py_int_log2 (n : Nat) : Nat := py_int_log2_aux n n

/-- Embeds `compute_zoom_level` (src/app.py lines 31-36):

    if radius < 500: return 15
    zoom = 15 - int(math.log(radius / 500, 2))
    return max(10, min(zoom, 18))

For `radius ≥ 500` the true quotient `radius / 500` is at least `1`, so
`int(math.log(radius / 500, 2))` is `py_int_log2` of the floored quotient
`radius.toNat / 500`. -/
def compute_zoom_level (radius : Int) : Int :=
  if radius < 500 then 15
  else
    let zoom : Int := 15 - (py_int_log2 (radius.toNat / 500) : Int)
    max 10 (min zoom 18)

/-- The least radius for which the CPython true division `radius / 500`
raises OverflowError.  `int / int` produces the correctly rounded IEEE
double of the exact quotient and raises when that rounding overflows, i.e.
when the exact quotient is at least `2 ^ 1024 - 2 ^ 970` (the midpoint
between the largest double `2 ^ 1024 - 2 ^ 971` and `2 ^ 1024`; the
midpoint itself rounds away from the odd-mantissa largest double, hence
overflows).  `radius / 500 ≥ 2 ^ 1024 - 2 ^ 970` is exactly
`radius ≥ 500 * (2 ^ 1024 - 2 ^ 970)`. -/
def float_div_overflow_bound : Int := 500 * (2 ^ 1024 - 2 ^ 970)

/-- Embeds `compute_zoom_level` (src/app.py lines 31-36) with the error path
of the division kept: `none` is the OverflowError that `radius / 500` raises
once the quotient leaves the IEEE double range.  Radii below 500 (zero and
negative ones included) return before the division and cannot overflow; on
every completing radius the returned value is that of `compute_zoom_level`
(whose exact logarithm stands for the float one; rounding of the in-range
float pipeline does not move the result out of any bound proved here). -/
def compute_zoom_level_py (radius : Int) : Option Int :=
  if radius < 500 then some 15
  else if float_div_overflow_bound ≤ radius then none
  else some (compute_zoom_level radius)

/-- A shapely geometry as observed by src/app.py: the code dispatches on
`geom_type` and reads `.y`/`.x` of a Point or of the centroid of a
Polygon / MultiPolygon; any other geometry type (e.g. LineString) is only
ever skipped, so only its presence is modelled.  Coordinates are embedded as
rationals: the application performs no arithmetic on them, it only forwards
them. -/
inductive Geometry where
  | point (y x : Rat)
  | polygon (centroid_y centroid_x : Rat)
  | multiPolygon (centroid_y centroid_x : Rat)
  | lineString
deriving DecidableEq, Repr

/-- One row of the GeoDataFrame returned by `ox.geometries_from_point`: a
possibly-missing geometry and the two attribute values the application reads
(`name` for tooltips, `amenity` for the chart tally); `none` stands for a
missing value (NaN / absent column). -/
structure Row where
  geometry : Option Geometry
  name : Option String
  amenity : Option String
deriving DecidableEq, Repr

/-- The amenity table (pandas GeoDataFrame) as used by src/app.py: its rows,
plus whether the frame has an `amenity` column (`create_plotly_chart` tests
membership of that column name in `amenities.columns`). -/
structure DataFrame where
  rows : List Row
  amenityColumn : Bool
deriving DecidableEq, Repr

/-- `pd.DataFrame()`: no rows, no columns. -/
def DataFrame.emptyFrame : DataFrame := { rows := [], amenityColumn := false }

/-- pandas `.empty`: true when the frame has no rows. -/
def DataFrame.isEmpty (df : DataFrame) : Bool := df.rows.isEmpty

/-- The tag dictionary built on src/app.py line 44: either every amenity
(`tags = ..amenity.. : True`) or one amenity type. -/
inductive TagFilter where
  | amenityAll
  | amenityOnly (t : String)
deriving DecidableEq, Repr

/-- Outcome of the external `ox.geometries_from_point` call: a feature table,
or a raised exception carrying its message. -/
inductive QueryResult where
  | ok (df : DataFrame)
  | raises (msg : String)
deriving DecidableEq, Repr

/-- The tag dictionary of src/app.py line 44:
`tags = ..amenity..: True if amenity_type == all else ..amenity..: amenity_type`. -/
def amenityTags (amenity_type : String) : TagFilter :=
  if amenity_type == "all" then TagFilter.amenityAll
  else TagFilter.amenityOnly amenity_type

/-- Embeds `get_amenities` (src/app.py lines 38-49).  The external osmnx call
is an oracle `ox_geometries` mapping the forwarded point, tag filter and
radius to its outcome.  The second component of the result collects the
messages displayed through `st.error`. -/
def get_amenities (ox_geometries : Rat × Rat → TagFilter → Int → QueryResult)
    (latitude longitude : Rat) (amenity_type : String) (radius : Int) :
    DataFrame × List String :=
  let tags := amenityTags amenity_type
  match ox_geometries (latitude, longitude) tags radius with
  | QueryResult.ok df => (df, [])
  | QueryResult.raises e =>
      (DataFrame.emptyFrame, ["Error fetching amenities: " ++ e])

/-- Python `str.capitalize()`: first character uppercased, the rest
lowercased. -/
def pyCapitalize (s : String) : String :=
  match s.data with
  | [] => ""
  | c :: cs => String.mk (c.toUpper :: cs.map Char.toLower)

/-- A folium marker as constructed on src/app.py lines 67-71. -/
structure Marker where
  location : Rat × Rat
  popup : String
  tooltip : String
deriving DecidableEq, Repr

/-- The body of the loop of `add_markers_to_map` (src/app.py lines 54-71) for
one row: `none` when the row is skipped (`continue`), otherwise the marker
added to the cluster. -/
def markerOfRow (amenity_type : String) (row : Row) : Option Marker :=
  match row.geometry with
  | none => none
  | some g =>
    let coords : Option (Rat × Rat) :=
      match g with
      | Geometry.point y x => some (y, x)
      | Geometry.polygon cy cx => some (cy, cx)
      | Geometry.multiPolygon cy cx => some (cy, cx)
      | Geometry.lineString => none
    match coords with
    | none => none
    | some c =>
      let name := row.name.getD "N/A"
      let tooltip := pyCapitalize amenity_type ++ ": " ++ name
      some { location := c, popup := tooltip, tooltip := tooltip }

/-- Embeds `add_markers_to_map` (src/app.py lines 51-71): the list of markers
added to the MarkerCluster of the map, in row order. -/
def add_markers_to_map (amenities : DataFrame) (amenity_type : String) :
    List Marker :=
  amenities.rows.filterMap (markerOfRow amenity_type)

/-- The body of the loop of `add_heatmap_to_map` (src/app.py lines 76-82) for
one row: the coordinate pair appended to `heat_data`, if any. -/
def heatOfRow (row : Row) : Option (Rat × Rat) :=
  match row.geometry with
  | none => none
  | some g =>
    match g with
    | Geometry.point y x => some (y, x)
    | Geometry.polygon cy cx => some (cy, cx)
    | Geometry.multiPolygon cy cx => some (cy, cx)
    | Geometry.lineString => none

/-- Embeds `add_heatmap_to_map` (src/app.py lines 73-84): the `heat_data`
list handed to the HeatMap layer (the layer is only added when this list is
nonempty). -/
def add_heatmap_to_map (amenities : DataFrame) : List (Rat × Rat) :=
  amenities.rows.filterMap heatOfRow

/-- pandas `Series.value_counts()` as used on src/app.py line 90: one row per
distinct value with its frequency, sorted by descending count (NaN values are
dropped by the caller before this point). -/
def value_counts (vals : List String) : List (String × Nat) :=
  (vals.dedup.map (fun v => (v, vals.count v))).insertionSort
    (fun a b => b.2 ≤ a.2)

/-- The plotly bar figure built on src/app.py line 97: the (Amenity, Count)
data rows and the title. -/
structure Figure where
  data : List (String × Nat)
  title : String
deriving DecidableEq, Repr

/-- The local table `counts` of `create_plotly_chart` (src/app.py lines
88-95): for `all`, the `value_counts` tally of the `amenity` column when that
column exists (missing values, i.e. NaN, dropped) and an empty table
otherwise; for a specific type, the single row `(amenity_type,
len(amenities))`. -/
def chart_counts (amenities : DataFrame) (amenity_type : String) :
    List (String × Nat) :=
  if amenity_type == "all" then
    if amenities.amenityColumn then
      value_counts (amenities.rows.filterMap Row.amenity)
    else []
  else [(amenity_type, amenities.rows.length)]

/-- Embeds `create_plotly_chart` (src/app.py lines 86-100): `none` is the
Python `None` returned when the tally is empty. -/
def create_plotly_chart (amenities : DataFrame) (amenity_type : String) :
    Option Figure :=
  let counts := chart_counts amenities amenity_type
  if counts.isEmpty then none
  else some { data := counts, title := "Amenity Distribution" }

/-- The data rows of an optional figure (empty when there is no figure). -/
def chartEntries : Option Figure → List (String × Nat)
  | none => []
  | some fig => fig.data

/-- The folium map rendered through `folium_static`: center, zoom and the
marker / heat layers added to it. -/
structure MapRender where
  center : Rat × Rat
  zoom_start : Int
  markers : List Marker
  heat : List (Rat × Rat)
deriving DecidableEq, Repr

/-- Everything src/app.py renders during one click of the button (lines
123-148): the radius forwarded to the fetch, the `st.error` and `st.warning`
messages, the map (if one is built), the chart (if one is shown), and whether
the no-chart text was written. -/
structure ClickRender where
  fetchRadius : Int
  errors : List String
  warnings : List String
  mapView : Option MapRender
  chart : Option Figure
  noChartMsg : Bool
deriving DecidableEq, Repr

/-- Embeds the body of the button branch of `main` (src/app.py lines
123-148): fetch with the constant `RADIUS_DEFAULT`, return early on an empty
table, otherwise build the map, add the layers selected by the toggles, and
show the chart when there is one. -/
def mainOnClick (ox_geometries : Rat × Rat → TagFilter → Int → QueryResult)
    (lat lon : Rat) (amenity_type : String)
    (show_markers show_heatmap : Bool) : ClickRender :=
  let fetched := get_amenities ox_geometries lat lon amenity_type RADIUS_DEFAULT
  let amenities := fetched.1
  if amenities.isEmpty then
    { fetchRadius := RADIUS_DEFAULT, errors := fetched.2,
      warnings := ["No amenities found in the selected area."],
      mapView := none, chart := none, noChartMsg := false }
  else
    let zoom_level := compute_zoom_level RADIUS_DEFAULT
    let markers :=
      if show_markers then add_markers_to_map amenities amenity_type else []
    let heat := if show_heatmap then add_heatmap_to_map amenities else []
    let chart := create_plotly_chart amenities amenity_type
    { fetchRadius := RADIUS_DEFAULT, errors := fetched.2, warnings := [],
      mapView := some { center := (lat, lon), zoom_start := zoom_level,
                        markers := markers, heat := heat },
      chart := chart, noChartMsg := chart.isNone }

/-- Modelled from the spec: the repository holds two near-duplicate
applications and only one (src/app.py) is under src/; the other variant
exposes the user-facing search-radius control, "search radius (300-3000,
default 1000)", missing from src/app.py.  A Streamlit slider keeps the chosen
value inside its range and starts at its default. -/
def radius_slider_min : Int := 300

/-- Modelled from the spec: upper bound of the radius control of the second
application variant. -/
def radius_slider_max : Int := 3000

/-- Modelled from the spec: the radius control of the second application
variant; `none` is an untouched control (the default), `some v` a user
choice, constrained to the control range. -/
def radius_control (user : Option Int) : Int :=
  match user with
  | none => RADIUS_DEFAULT
  | some v => max radius_slider_min (min v radius_slider_max)

/-- Modelled from the spec: the second variant forwards the value of its
radius control to the geospatial feature query on each fetch ("one
geospatial feature query per fetch, parameterized by point, radius, and tag
filter"). -/
def variant_fetch_radius (user : Option Int) : Int := radius_control user

/-- An oracle whose query always raises (witness fixture). -/
def oxRaises : Rat × Rat → TagFilter → Int → QueryResult :=
  fun _ _ _ => QueryResult.raises "boom"

/-- An oracle whose query always returns the empty frame (witness fixture). -/
def oxEmpty : Rat × Rat → TagFilter → Int → QueryResult :=
  fun _ _ _ => QueryResult.ok DataFrame.emptyFrame

/-- A point-amenity row (witness fixture). -/
def rowA : Row :=
  { geometry := some (Geometry.point 48 14), name := some "A",
    amenity := some "cafe" }

/-- A polygon-amenity row (witness fixture). -/
def rowB : Row :=
  { geometry := some (Geometry.polygon 46 12), name := none,
    amenity := some "cafe" }

/-- A row without geometry (witness fixture). -/
def rowNone : Row := { geometry := none, name := none, amenity := none }

/-- A two-row feature table (witness fixture): one point amenity and one
polygon amenity. -/
def dfSample : DataFrame := { rows := [rowA, rowB], amenityColumn := true }

/-- `py_int_log2_aux` computes `Nat.log 2` when given enough fuel. -/
theorem py_int_log2_aux_eq_log (fuel : Nat) :
    ∀ n : Nat, n ≤ fuel → py_int_log2_aux fuel n = Nat.log 2 n := by
  induction fuel with
  | zero =>
    intro n hn
    interval_cases n
    simp [py_int_log2_aux]
  | succ fuel ih =>
    intro n hn
    by_cases h2 : n < 2
    · simp [py_int_log2_aux, h2, Nat.log_of_lt h2]
    · have hb : (1 : Nat) < 2 := by omega
      have hle : 2 ≤ n := by omega
      have hdiv : n / 2 ≤ fuel := by
        have := Nat.div_lt_self (by omega : 0 < n) (by omega : 1 < 2)
        omega
      have hstep : py_int_log2_aux (fuel + 1) n = py_int_log2_aux fuel (n / 2) + 1 := by
        simp only [py_int_log2_aux, if_neg h2]
      rw [hstep, ih (n / 2) hdiv, Nat.log_of_one_lt_of_le hb hle]

/-- `py_int_log2` agrees with the mathematical `Nat.log 2`. -/
theorem py_int_log2_eq_log (n : Nat) : py_int_log2 n = Nat.log 2 n :=
  py_int_log2_aux_eq_log n n le_rfl

/-- C1: for every radius strictly below 500, `compute_zoom_level` returns
exactly 15. -/
theorem compute_zoom_level_small_radius (radius : Int) (h : radius < 500) :
    compute_zoom_level radius = 15 := by
  simp [compute_zoom_level, h]

/-- Witness for C1 at radius 300. -/
theorem compute_zoom_level_small_radius_witness :
    (300 : Int) < 500 ∧ compute_zoom_level 300 = 15 :=
  ⟨by decide, compute_zoom_level_small_radius 300 (by decide)⟩

/-- C2: for every radius at least 500, `compute_zoom_level` returns an
integer in the closed interval [10, 18]. -/
theorem compute_zoom_level_clamped (radius : Int) (h : 500 ≤ radius) :
    10 ≤ compute_zoom_level radius ∧ compute_zoom_level radius ≤ 18 := by
  rw [compute_zoom_level, if_neg (by omega)]
  refine ⟨le_max_left _ _, max_le (by norm_num) (min_le_right _ _)⟩

/-- Witness for C2 at radius 1000. -/
theorem compute_zoom_level_clamped_witness :
    (500 : Int) ≤ 1000 ∧
      10 ≤ compute_zoom_level 1000 ∧ compute_zoom_level 1000 ≤ 18 :=
  ⟨by decide, compute_zoom_level_clamped 1000 (by decide)⟩

/-- C3: `compute_zoom_level` is antitone on radii at least 500: the zoom does
not increase as the radius grows. -/
theorem compute_zoom_level_antitone (r1 r2 : Int) (h1 : 500 ≤ r1)
    (h12 : r1 ≤ r2) : compute_zoom_level r2 ≤ compute_zoom_level r1 := by
  rw [compute_zoom_level, if_neg (by omega), compute_zoom_level,
    if_neg (by omega)]
  have hk : py_int_log2 (r1.toNat / 500) ≤ py_int_log2 (r2.toNat / 500) := by
    rw [py_int_log2_eq_log, py_int_log2_eq_log]
    exact Nat.log_mono_right (Nat.div_le_div_right (Int.toNat_le_toNat h12))
  exact max_le_max le_rfl (min_le_min (by omega) le_rfl)

/-- Witness for C3 at radii 600 and 5000. -/
theorem compute_zoom_level_antitone_witness :
    (500 : Int) ≤ 600 ∧ (600 : Int) ≤ 5000 ∧
      compute_zoom_level 5000 ≤ compute_zoom_level 600 :=
  ⟨by decide, by decide,
    compute_zoom_level_antitone 600 5000 (by decide) (by decide)⟩

/-- Helper: every value `compute_zoom_level` returns lies in [10, 15]. -/
theorem compute_zoom_level_mem_Icc (radius : Int) :
    10 ≤ compute_zoom_level radius ∧ compute_zoom_level radius ≤ 15 := by
  by_cases h : radius < 500
  · simp [compute_zoom_level, h]
  · rw [compute_zoom_level, if_neg h]
    refine ⟨le_max_left _ _, max_le (by norm_num) ?_⟩
    have hk : (0 : Int) ≤ (py_int_log2 (radius.toNat / 500) : Int) :=
      Int.natCast_nonneg _
    exact le_trans (min_le_left _ _) (by omega)

/-- C9 counterexample: `compute_zoom_level` is not total over all integer
radii.  At the concrete radius `500 * 2 ^ 1024` the division `radius / 500`
overflows the IEEE double range, so the program raises OverflowError instead
of returning a value in [10, 15]. -/
theorem compute_zoom_level_overflow_counterexample :
    compute_zoom_level_py (500 * 2 ^ 1024) = none := by
  unfold compute_zoom_level_py
  rw [if_neg (by norm_num), if_pos (by norm_num [float_div_overflow_bound])]

/-- C9 amended: `compute_zoom_level` completes exactly on the integer radii
below `float_div_overflow_bound` (zero and negative radii take the
`radius < 500` branch and yield 15 before the division); on every completing
radius the result lies in [10, 15], so the upper clamp at 18 is never
attained, while every radius at or above the bound raises OverflowError. -/
theorem compute_zoom_level_total_range_amended (radius : Int) :
    (radius < float_div_overflow_bound →
      compute_zoom_level_py radius = some (compute_zoom_level radius) ∧
        10 ≤ compute_zoom_level radius ∧ compute_zoom_level radius ≤ 15) ∧
    (float_div_overflow_bound ≤ radius →
      compute_zoom_level_py radius = none) ∧
    compute_zoom_level_py (-(radius.natAbs : Int)) = some 15 := by
  refine ⟨?_, ?_, ?_⟩
  · intro h
    refine ⟨?_, compute_zoom_level_mem_Icc radius⟩
    unfold compute_zoom_level_py
    by_cases h5 : radius < 500
    · rw [if_pos h5, compute_zoom_level, if_pos h5]
    · rw [if_neg h5, if_neg (not_le.mpr h)]
  · intro h
    have hbig : (500 : Int) ≤ float_div_overflow_bound := by
      norm_num [float_div_overflow_bound]
    unfold compute_zoom_level_py
    rw [if_neg (by omega), if_pos h]
  · have h : -((radius.natAbs : Int)) < 500 := by
      have := Int.natCast_nonneg radius.natAbs
      omega
    unfold compute_zoom_level_py
    rw [if_pos h]

/-- Witness for the amended C9 at the completing radius 1000. -/
theorem compute_zoom_level_total_range_amended_witness :
    (1000 : Int) < float_div_overflow_bound ∧
      compute_zoom_level_py 1000 = some (compute_zoom_level 1000) ∧
        10 ≤ compute_zoom_level 1000 ∧ compute_zoom_level 1000 ≤ 15 :=
  ⟨by norm_num [float_div_overflow_bound],
    (compute_zoom_level_total_range_amended 1000).1
      (by norm_num [float_div_overflow_bound])⟩

/-- C4: `get_amenities` never propagates an exception: when the external
query raises, the error is displayed and the empty frame is returned; when
it succeeds, its result is returned unchanged with nothing displayed. -/
theorem get_amenities_no_raise
    (ox : Rat × Rat → TagFilter → Int → QueryResult) (lat lon : Rat)
    (amenity_type : String) (radius : Int) :
    (∀ e, ox (lat, lon) (amenityTags amenity_type) radius =
        QueryResult.raises e →
      get_amenities ox lat lon amenity_type radius =
        (DataFrame.emptyFrame, ["Error fetching amenities: " ++ e])) ∧
    (∀ df, ox (lat, lon) (amenityTags amenity_type) radius =
        QueryResult.ok df →
      get_amenities ox lat lon amenity_type radius = (df, [])) := by
  constructor
  · intro e he
    simp [get_amenities, he]
  · intro df hdf
    simp [get_amenities, hdf]

/-- Witness for C4 with an always-raising oracle. -/
theorem get_amenities_no_raise_witness :
    oxRaises (0, 0) (amenityTags "all") 1000 = QueryResult.raises "boom" ∧
      get_amenities oxRaises 0 0 "all" 1000 =
        (DataFrame.emptyFrame, ["Error fetching amenities: boom"]) :=
  ⟨rfl, (get_amenities_no_raise oxRaises 0 0 "all" 1000).1 "boom" rfl⟩

/-- C5: when the fetched amenity table is empty, the click handler shows the
no-amenities warning and returns early: no map is built (hence no marker and
no heat layer is added) and no chart is rendered. -/
theorem main_empty_nothing_to_show
    (ox : Rat × Rat → TagFilter → Int → QueryResult) (lat lon : Rat)
    (amenity_type : String) (show_markers show_heatmap : Bool)
    (h : (get_amenities ox lat lon amenity_type RADIUS_DEFAULT).1.isEmpty =
      true) :
    mainOnClick ox lat lon amenity_type show_markers show_heatmap =
      { fetchRadius := RADIUS_DEFAULT,
        errors := (get_amenities ox lat lon amenity_type RADIUS_DEFAULT).2,
        warnings := ["No amenities found in the selected area."],
        mapView := none, chart := none, noChartMsg := false } := by
  simp [mainOnClick, h]

/-- Witness for C5 with an oracle that returns the empty frame. -/
theorem main_empty_nothing_to_show_witness :
    (get_amenities oxEmpty 0 0 "all" RADIUS_DEFAULT).1.isEmpty = true ∧
      mainOnClick oxEmpty 0 0 "all" true true =
        { fetchRadius := 1000, errors := [],
          warnings := ["No amenities found in the selected area."],
          mapView := none, chart := none, noChartMsg := false } :=
  ⟨rfl, main_empty_nothing_to_show oxEmpty 0 0 "all" true true rfl⟩

/-- C6: the radius control of the spec ranges over [300, 3000] with default
`RADIUS_DEFAULT = 1000`, the second application variant forwards the chosen
value to the feature query, and src/app.py itself always forwards the
constant `RADIUS_DEFAULT`. -/
theorem radius_control_forwards_choice (r : Int)
    (h1 : radius_slider_min ≤ r) (h2 : r ≤ radius_slider_max) :
    radius_slider_min = 300 ∧ radius_slider_max = 3000 ∧
      radius_control none = 1000 ∧ variant_fetch_radius (some r) = r ∧
      ∀ ox lat lon amenity_type show_markers show_heatmap,
        (mainOnClick ox lat lon amenity_type show_markers
            show_heatmap).fetchRadius = RADIUS_DEFAULT := by
  refine ⟨rfl, rfl, rfl, ?_, ?_⟩
  · have hv : variant_fetch_radius (some r) =
        max radius_slider_min (min r radius_slider_max) := rfl
    rw [hv, min_eq_left h2, max_eq_right h1]
  · intro ox lat lon amenity_type show_markers show_heatmap
    by_cases hc :
        (get_amenities ox lat lon amenity_type RADIUS_DEFAULT).1.isEmpty <;>
      simp [mainOnClick, hc]

/-- Witness for C6 at the chosen radius 600. -/
theorem radius_control_forwards_choice_witness :
    radius_slider_min ≤ 600 ∧ (600 : Int) ≤ radius_slider_max ∧
      variant_fetch_radius (some 600) = 600 :=
  ⟨by decide, by decide,
    (radius_control_forwards_choice 600 (by decide) (by decide)).2.2.2.1⟩

/-- Helper: a coordinate produced by `markerOfRow` on a row of the table is
the location of a marker of `add_markers_to_map`. -/
theorem mem_markers_map_of_row (df : DataFrame) (amenity_type : String)
    (row : Row) (hrow : row ∈ df.rows) (c : Rat × Rat)
    (hc : (markerOfRow amenity_type row).map Marker.location = some c) :
    c ∈ (add_markers_to_map df amenity_type).map Marker.location := by
  rcases Option.map_eq_some'.mp hc with ⟨m, hm, hloc⟩
  exact List.mem_map.mpr ⟨m, List.mem_filterMap.mpr ⟨row, hrow, hm⟩, hloc⟩

/-- Helper: a coordinate produced by `heatOfRow` on a row of the table is in
the heat data of `add_heatmap_to_map`. -/
theorem mem_heatmap_of_row (df : DataFrame) (row : Row)
    (hrow : row ∈ df.rows) (c : Rat × Rat) (hc : heatOfRow row = some c) :
    c ∈ add_heatmap_to_map df :=
  List.mem_filterMap.mpr ⟨row, hrow, hc⟩

/-- C7: for every row of the table, a Point geometry contributes its own
(y, x) and a Polygon or MultiPolygon geometry contributes its centroid's
(y, x), both as a marker location of the marker cluster and as a heat-layer
data point. -/
theorem helpers_forward_coords (df : DataFrame) (amenity_type : String)
    (row : Row) (hrow : row ∈ df.rows) (g : Geometry)
    (hg : row.geometry = some g) :
    (∀ y x, g = Geometry.point y x →
      (y, x) ∈ (add_markers_to_map df amenity_type).map Marker.location ∧
        (y, x) ∈ add_heatmap_to_map df) ∧
    (∀ cy cx,
      g = Geometry.polygon cy cx ∨ g = Geometry.multiPolygon cy cx →
      (cy, cx) ∈ (add_markers_to_map df amenity_type).map Marker.location ∧
        (cy, cx) ∈ add_heatmap_to_map df) := by
  constructor
  · rintro y x rfl
    exact ⟨mem_markers_map_of_row df amenity_type row hrow (y, x)
        (by simp [markerOfRow, hg]),
      mem_heatmap_of_row df row hrow (y, x) (by simp [heatOfRow, hg])⟩
  · rintro cy cx (rfl | rfl) <;>
      exact ⟨mem_markers_map_of_row df amenity_type row hrow (cy, cx)
          (by simp [markerOfRow, hg]),
        mem_heatmap_of_row df row hrow (cy, cx) (by simp [heatOfRow, hg])⟩

/-- Witness for C7 on the sample table: the point row's own coordinates reach
both layers. -/
theorem helpers_forward_coords_witness :
    rowA ∈ dfSample.rows ∧ rowA.geometry = some (Geometry.point 48 14) ∧
      ((48 : Rat), (14 : Rat)) ∈
        (add_markers_to_map dfSample "cafe").map Marker.location ∧
      ((48 : Rat), (14 : Rat)) ∈ add_heatmap_to_map dfSample :=
  ⟨by simp [dfSample], rfl,
    (helpers_forward_coords dfSample "cafe" rowA (by simp [dfSample])
        (Geometry.point 48 14) rfl).1 48 14 rfl⟩

/-- Helper: the data rows of the figure of `create_plotly_chart` are exactly
its `counts` table (an empty tally yields no figure, hence no data rows). -/
theorem chartEntries_create_plotly_chart (df : DataFrame)
    (amenity_type : String) :
    chartEntries (create_plotly_chart df amenity_type) =
      chart_counts df amenity_type := by
  unfold create_plotly_chart
  by_cases h : (chart_counts df amenity_type).isEmpty
  · rw [if_pos h, List.isEmpty_iff.mp h]
    rfl
  · rw [if_neg h]
    rfl

/-- C8: for a specific amenity type, the chart holds the single category
`amenity_type` counted by the number of table rows; for `all` with an
`amenity` column present, the chart holds one entry per distinct amenity
value, paired with its frequency of occurrence among the non-missing column
values. -/
theorem create_plotly_chart_tallies (df : DataFrame) (amenity_type : String) :
    (amenity_type ≠ "all" →
      create_plotly_chart df amenity_type =
        some { data := [(amenity_type, df.rows.length)],
               title := "Amenity Distribution" }) ∧
    (amenity_type = "all" → df.amenityColumn = true →
      ((chartEntries (create_plotly_chart df amenity_type)).map
          Prod.fst).Nodup ∧
        ∀ v c, ((v, c) ∈ chartEntries (create_plotly_chart df amenity_type) ↔
          v ∈ df.rows.filterMap Row.amenity ∧
            c = (df.rows.filterMap Row.amenity).count v)) := by
  constructor
  · intro hne
    have hb : (amenity_type == "all") = false := by
      simpa using hne
    unfold create_plotly_chart chart_counts
    rw [hb]
    rfl
  · rintro rfl hcol
    rw [chartEntries_create_plotly_chart]
    have hcounts : chart_counts df "all" =
        value_counts (df.rows.filterMap Row.amenity) := by
      unfold chart_counts
      rw [hcol]
      rfl
    rw [hcounts]
    constructor
    · have hfst : (((df.rows.filterMap Row.amenity).dedup.map
            (fun v => (v, (df.rows.filterMap Row.amenity).count v))).map
          Prod.fst) = (df.rows.filterMap Row.amenity).dedup := by
        simp [List.map_map, Function.comp_def]
      have hperm : List.Perm
          ((value_counts (df.rows.filterMap Row.amenity)).map Prod.fst)
          (df.rows.filterMap Row.amenity).dedup := by
        rw [← hfst]
        exact (List.perm_insertionSort (fun a b : String × Nat => b.2 ≤ a.2)
          ((df.rows.filterMap Row.amenity).dedup.map
            (fun v => (v, (df.rows.filterMap Row.amenity).count v)))).map
          Prod.fst
      exact hperm.nodup_iff.mpr (List.nodup_dedup _)
    · intro v c
      constructor
      · intro hmem
        have hmem' : (v, c) ∈ (df.rows.filterMap Row.amenity).dedup.map
            (fun v => (v, (df.rows.filterMap Row.amenity).count v)) := by
          simpa [value_counts] using hmem
        rcases List.mem_map.mp hmem' with ⟨u, hu, huv⟩
        obtain ⟨rfl, rfl⟩ :
            u = v ∧ (df.rows.filterMap Row.amenity).count u = c := by
          simpa using huv
        exact ⟨List.mem_dedup.mp hu, rfl⟩
      · rintro ⟨hv, rfl⟩
        have hin : (v, (df.rows.filterMap Row.amenity).count v) ∈
            (df.rows.filterMap Row.amenity).dedup.map
              (fun v => (v, (df.rows.filterMap Row.amenity).count v)) :=
          List.mem_map.mpr ⟨v, List.mem_dedup.mpr hv, rfl⟩
        simpa [value_counts] using hin

/-- Witness for C8 on the sample table with a specific amenity type. -/
theorem create_plotly_chart_tallies_witness :
    ("cafe" : String) ≠ "all" ∧
      create_plotly_chart dfSample "cafe" =
        some { data := [("cafe", 2)], title := "Amenity Distribution" } :=
  ⟨by decide, (create_plotly_chart_tallies dfSample "cafe").1 (by decide)⟩

/-- C10: a row whose geometry is missing, or of a type that is neither Point
nor Polygon nor MultiPolygon (e.g. a LineString), is skipped by both
rendering helpers: removing it changes neither the markers nor the heat
data, and both helpers are total on such rows. -/
theorem helpers_skip_non_renderable (rows1 rows2 : List Row) (col : Bool)
    (amenity_type : String) (row : Row)
    (h : row.geometry = none ∨ row.geometry = some Geometry.lineString) :
    add_markers_to_map { rows := rows1 ++ row :: rows2, amenityColumn := col }
        amenity_type =
      add_markers_to_map { rows := rows1 ++ rows2, amenityColumn := col }
        amenity_type ∧
    add_heatmap_to_map
        { rows := rows1 ++ row :: rows2, amenityColumn := col } =
      add_heatmap_to_map { rows := rows1 ++ rows2, amenityColumn := col } := by
  have hm : markerOfRow amenity_type row = none := by
    rcases h with h | h <;> simp [markerOfRow, h]
  have hh : heatOfRow row = none := by
    rcases h with h | h <;> simp [heatOfRow, h]
  refine ⟨?_, ?_⟩ <;>
    simp [add_markers_to_map, add_heatmap_to_map, List.filterMap_append,
      List.filterMap_cons, hm, hh]

/-- Witness for C10: a geometry-less row between a point row and nothing. -/
theorem helpers_skip_non_renderable_witness :
    (rowNone.geometry = none ∨
        rowNone.geometry = some Geometry.lineString) ∧
      add_markers_to_map
          { rows := [rowA] ++ rowNone :: [], amenityColumn := true } "all" =
        add_markers_to_map
          { rows := [rowA] ++ [], amenityColumn := true } "all" ∧
      add_heatmap_to_map
          { rows := [rowA] ++ rowNone :: [], amenityColumn := true } =
        add_heatmap_to_map { rows := [rowA] ++ [], amenityColumn := true } :=
  ⟨Or.inl rfl,
    helpers_skip_non_renderable [rowA] [] true "all" rowNone (Or.inl rfl)⟩
